import Mathlib

/-!
Shallow embedding of `src/climate_app.py`, the SYMFLUENCE Köppen-Geiger
climate classification tool.

The program is a single interaction script: a click handler validates the
requested year range, then `analyze_point_climate` loops over the years,
issuing two region-reduction requests per year (temperature band, then
precipitation band) against the external geospatial compute service, and the
handler renders the outcome.  The external service is modelled as an oracle;
everything the repository itself computes (unit-conversion band math, the
per-year loop with its single try/except, the classifier decision table, the
validation and rendering branches of `main`) is embedded below.
-/

/-- One per-year record, as appended to `climate_data` in
`analyze_point_climate` (src lines 95-99): the year, the annual mean
temperature in degrees Celsius, and the annual total precipitation in
millimeters. -/
structure ClimateRecord where
  year : Int
  tmean_annual : ℚ
  prec_annual : ℚ
  deriving DecidableEq

/-- A region-reduction request issued to the geospatial service: either the
temperature one, `temp_2m.reduceRegion(...).getInfo()` (src lines 81-86), or
the precipitation one, `precip.reduceRegion(...).getInfo()` (src lines
88-93), tagged with the year whose loop iteration issued it. -/
inductive RemoteCall where
  | tempRequest (year : Int)
  | precipRequest (year : Int)
  deriving DecidableEq

/-- The external geospatial compute service, seen through the two
`reduceRegion(...).getInfo()` calls a loop iteration makes for a year.
`Except.error msg` models a raised exception; `Except.ok none` models a
returned dictionary missing the band key (so `.get(key, 0)` falls back to
its default); `Except.ok (some v)` models the dictionary holding the spatial
mean `v` of the band, already unit-converted server side by the band math of
src lines 75 and 78. -/
structure EarthEngineOracle where
  tempReduceRegion : Int → Except String (Option ℚ)
  precipReduceRegion : Int → Except String (Option ℚ)

/-- Kelvin-to-Celsius band math, `.subtract(273.15)` (src line 75). -/
def kelvinToCelsius (k : ℚ) : ℚ := k - 273.15

/-- Meters-to-millimeters band math, `.multiply(1000)` (src line 78). -/
def metersToMillimeters (m : ℚ) : ℚ := m * 1000

/-- Embedding of `range(start_year, end_year + 1)` (src line 71): the
ascending list of years from `start_year` to `end_year` inclusive. -/
def yearRange (start_year end_year : Int) : List Int :=
  (List.range (end_year + 1 - start_year).toNat).map (fun i : Nat => start_year + (i : Int))

/-- Body of the `for year in range(...)` loop (src lines 71-99): the trace of
region-reduction requests actually issued, together with either the list of
accumulated records or the first raised exception, which aborts the loop. -/
def analyzeYears (oracle : EarthEngineOracle) :
    List Int → List RemoteCall × Except String (List ClimateRecord)
  | [] => ([], Except.ok [])
  | y :: ys =>
    match oracle.tempReduceRegion y with
    | Except.error msg => ([RemoteCall.tempRequest y], Except.error msg)
    | Except.ok tOpt =>
      match oracle.precipReduceRegion y with
      | Except.error msg =>
        ([RemoteCall.tempRequest y, RemoteCall.precipRequest y], Except.error msg)
      | Except.ok pOpt =>
        let rest := analyzeYears oracle ys
        (RemoteCall.tempRequest y :: RemoteCall.precipRequest y :: rest.1,
          Except.map
            (fun recs =>
              { year := y, tmean_annual := tOpt.getD 0, prec_annual := pOpt.getD 0 } :: recs)
            rest.2)

/-- User-facing surfaces of the script: `st.error`, `st.warning`, and the
rendered results block (dashboard, chart, table, download button). -/
inductive UiMessage where
  | uiError (msg : String)
  | uiWarning (msg : String)
  | resultsShown
  deriving DecidableEq

/-- Outcome of `analyze_point_climate`: the returned value (`some` records on
success, `none` when the try/except caught an exception), the messages it
emitted itself, and the trace of remote requests issued. -/
structure AnalyzeOutput where
  result : Option (List ClimateRecord)
  messages : List UiMessage
  trace : List RemoteCall
  deriving DecidableEq

/-- Embedding of `analyze_point_climate` (src lines 60-105): runs the
per-year loop inside a single try/except; on success it returns the records,
on a raised exception it emits one `st.error` and returns `None`. -/
def analyze_point_climate (oracle : EarthEngineOracle)
    (start_year end_year : Int) : AnalyzeOutput :=
  match (analyzeYears oracle (yearRange start_year end_year)).2 with
  | Except.ok recs =>
    { result := some recs,
      messages := [],
      trace := (analyzeYears oracle (yearRange start_year end_year)).1 }
  | Except.error msg =>
    { result := none,
      messages := [UiMessage.uiError ("Climate analysis failed: " ++ msg)],
      trace := (analyzeYears oracle (yearRange start_year end_year)).1 }

/-- Embedding of `classify_climate_type` (src lines 107-124): the simplified
Köppen-Geiger decision table. -/
def classify_climate_type (tmean prec : ℚ) : String :=
  if tmean < -3 then
    if prec < 400 then "ET - Tundra" else "Df - Continental"
  else if tmean < 18 then
    if prec < 500 then "BS - Semi-arid" else "Cf - Temperate"
  else
    if prec < 600 then "BW - Arid" else "Af - Tropical"

/-- The six labels the classifier can return (src lines 110-124). -/
def koppenLabels : List String :=
  ["ET - Tundra", "Df - Continental", "BS - Semi-arid",
   "Cf - Temperate", "BW - Arid", "Af - Tropical"]

/-- Decision table as the spec words it (spec sections 4.2 and 8): branch on
temperature below −3, in the closed-open interval [−3, 18), or at least 18,
then on the per-branch precipitation threshold; stated with the full label
strings the program uses. -/
def specDecisionTable (t p : ℚ) : String :=
  if t < -3 then
    if p < 400 then "ET - Tundra" else "Df - Continental"
  else if -3 ≤ t ∧ t < 18 then
    if p < 500 then "BS - Semi-arid" else "Cf - Temperate"
  else
    if p < 600 then "BW - Arid" else "Af - Tropical"

/-- Error message of the year-range validation (src line 255). -/
def startYearErrMsg : String := "❌ Start year must be before end year"

/-- Warning message of the no-data branch (src line 294). -/
def noDataMsg : String := "❌ No climate data found for the specified location and period"

/-- Post-analysis branch of `main` (src lines 261-294): when the returned
frame is neither `None` nor empty, render the results block; otherwise show
the no-data warning. -/
def render_results (climate_df : Option (List ClimateRecord)) : List UiMessage :=
  match climate_df with
  | some recs => if recs.isEmpty then [UiMessage.uiWarning noDataMsg] else [UiMessage.resultsShown]
  | none => [UiMessage.uiWarning noDataMsg]

/-- Outcome of one click of the "Analyze Climate" button: the messages shown,
whether `analyze_point_climate` was invoked, and the remote requests issued. -/
structure HandlerOutput where
  messages : List UiMessage
  analyzeInvoked : Bool
  remoteTrace : List RemoteCall
  deriving DecidableEq

/-- Embedding of the "Analyze Climate" click handler inside `main` (src
lines 253-294): reject `start_year >= end_year` with an error before doing
any remote work, otherwise run `analyze_point_climate` and render its
outcome. -/
def button_handler (oracle : EarthEngineOracle) (start_year end_year : Int) : HandlerOutput :=
  if start_year ≥ end_year then
    { messages := [UiMessage.uiError startYearErrMsg],
      analyzeInvoked := false,
      remoteTrace := [] }
  else
    { messages :=
        (analyze_point_climate oracle start_year end_year).messages ++
          render_results (analyze_point_climate oracle start_year end_year).result,
      analyzeInvoked := true,
      remoteTrace := (analyze_point_climate oracle start_year end_year).trace }

/-- Trace a fully successful run of the loop issues: for each year in order,
the temperature request then the precipitation request. -/
def fullTrace : List Int → List RemoteCall
  | [] => []
  | y :: ys => RemoteCall.tempRequest y :: RemoteCall.precipRequest y :: fullTrace ys

/-- Oracle whose region reductions always succeed with fixed band values. -/
def steadyOracle : EarthEngineOracle :=
  { tempReduceRegion := fun _ => Except.ok (some 10),
    precipReduceRegion := fun _ => Except.ok (some 500) }

/-- Oracle whose temperature reduction raises for the year 2011. -/
def failingOracle : EarthEngineOracle :=
  { tempReduceRegion := fun y =>
      if y = 2011 then Except.error "computation timed out" else Except.ok (some 10),
    precipReduceRegion := fun _ => Except.ok (some 500) }

/-- Oracle whose region reductions succeed but return a dictionary missing
the band key. -/
def missingKeyOracle : EarthEngineOracle :=
  { tempReduceRegion := fun _ => Except.ok none,
    precipReduceRegion := fun _ => Except.ok none }

/-- C5: the unit conversions applied to raw source values are exact:
273.15 Kelvin converts to 0 degrees Celsius and 0.001 meters of
precipitation converts to 1 millimeter. -/
theorem spec_C5 : kelvinToCelsius 273.15 = 0 ∧ metersToMillimeters 0.001 = 1 := by
  constructor <;> norm_num [kelvinToCelsius, metersToMillimeters]

/-- C1 counterexample: at temperature −5 and precipitation 300 the
classifier returns the full label "ET - Tundra", not the bare Köppen code
"ET" that the claim states as the return value. -/
theorem spec_C1_counterexample :
    classify_climate_type (-5) 300 = "ET - Tundra" ∧
    classify_climate_type (-5) 300 ≠ "ET" := by
  constructor <;> decide

/-- C1 (amended): for every temperature and precipitation the classifier is
total, agrees with the spec's three-branch decision table with each returned
label being the stated Köppen code followed by a descriptive suffix
("ET - Tundra", "Df - Continental", "BS - Semi-arid", "Cf - Temperate",
"BW - Arid", "Af - Tropical"), and always returns one of exactly these six
labels. -/
theorem spec_C1 (t p : ℚ) :
    classify_climate_type t p = specDecisionTable t p ∧
    classify_climate_type t p ∈ koppenLabels := by
  constructor
  · unfold classify_climate_type specDecisionTable
    rcases lt_or_le t (-3) with h1 | h1
    · simp [h1]
    · rcases lt_or_le t 18 with h2 | h2
      · simp [not_lt.mpr h1, h1, h2]
      · simp [not_lt.mpr h1, not_lt.mpr h2, h2]
  · unfold classify_climate_type koppenLabels
    split_ifs <;> simp

/-- C2: at temperature exactly −3 the classifier takes the middle branch,
returning the semi-arid label below 500 mm and the temperate label
otherwise, and never the tundra or continental label: the first branch is
open at −3 and the middle branch closed at −3. -/
theorem spec_C2 (p : ℚ) :
    classify_climate_type (-3) p = (if p < 500 then "BS - Semi-arid" else "Cf - Temperate") ∧
    classify_climate_type (-3) p ≠ "ET - Tundra" ∧
    classify_climate_type (-3) p ≠ "Df - Continental" := by
  have h1 : ¬((-3 : ℚ) < -3) := lt_irrefl _
  have h2 : ((-3 : ℚ) < 18) := by norm_num
  unfold classify_climate_type
  rw [if_neg h1, if_pos h2]
  rcases lt_or_le p 500 with h | h
  · rw [if_pos h]
    exact ⟨rfl, by decide, by decide⟩
  · rw [if_neg (not_lt.mpr h)]
    exact ⟨rfl, by decide, by decide⟩

/-- A year's requests appear in `fullTrace years` exactly when the year is in
the list: temperature request case. -/
theorem mem_fullTrace_temp (y : Int) (ys : List Int) :
    RemoteCall.tempRequest y ∈ fullTrace ys ↔ y ∈ ys := by
  induction ys with
  | nil => simp [fullTrace]
  | cons z zs ih => simp [fullTrace, ih]

/-- A year's requests appear in `fullTrace years` exactly when the year is in
the list: precipitation request case. -/
theorem mem_fullTrace_precip (y : Int) (ys : List Int) :
    RemoteCall.precipRequest y ∈ fullTrace ys ↔ y ∈ ys := by
  induction ys with
  | nil => simp [fullTrace]
  | cons z zs ih => simp [fullTrace, ih]

/-- When the years are pairwise distinct, so are the requests of the full
trace. -/
theorem fullTrace_nodup (ys : List Int) (h : ys.Nodup) : (fullTrace ys).Nodup := by
  induction ys with
  | nil => simp [fullTrace]
  | cons z zs ih =>
    rcases List.nodup_cons.mp h with ⟨hz, hzs⟩
    refine List.nodup_cons.mpr ⟨?_, List.nodup_cons.mpr ⟨?_, ih hzs⟩⟩
    · intro hmem
      rcases List.mem_cons.mp hmem with heq | hmem'
      · exact absurd heq (by simp)
      · exact hz ((mem_fullTrace_temp z zs).mp hmem')
    · intro hmem
      exact hz ((mem_fullTrace_precip z zs).mp hmem)

/-- The requested range lists its years in strictly ascending order. -/
theorem yearRange_pairwise (s e : Int) : List.Pairwise (· < ·) (yearRange s e) := by
  unfold yearRange
  rw [List.pairwise_map]
  refine List.Pairwise.imp ?_ (List.pairwise_lt_range _)
  intro a b hab
  omega

/-- The years of the requested range are pairwise distinct. -/
theorem yearRange_nodup (s e : Int) : (yearRange s e).Nodup := by
  exact (yearRange_pairwise s e).imp (fun h => ne_of_lt h)

/-- Membership in the requested range is exactly the inclusive year
interval. -/
theorem yearRange_mem (s e y : Int) : y ∈ yearRange s e ↔ s ≤ y ∧ y ≤ e := by
  unfold yearRange
  rw [List.mem_map]
  constructor
  · rintro ⟨i, hi, hiy⟩
    rw [List.mem_range] at hi
    have hyi : s + (i : Int) = y := hiy
    omega
  · rintro ⟨h1, h2⟩
    refine ⟨(y - s).toNat, ?_, ?_⟩
    · rw [List.mem_range]
      omega
    · show s + (((y - s).toNat : Nat) : Int) = y
      omega

/-- The trace a run of the loop issues is an initial segment of the full
trace of its year list. -/
theorem analyzeYears_trace_below (oracle : EarthEngineOracle) (ys : List Int) :
    (analyzeYears oracle ys).1 <+: fullTrace ys := by
  induction ys with
  | nil => exact ⟨[], rfl⟩
  | cons z zs ih =>
    unfold analyzeYears fullTrace
    cases ht : oracle.tempReduceRegion z with
    | error m => exact ⟨RemoteCall.precipRequest z :: fullTrace zs, by simp⟩
    | ok tOpt =>
      cases hp : oracle.precipReduceRegion z with
      | error m => exact ⟨fullTrace zs, by simp⟩
      | ok pOpt =>
        rcases ih with ⟨t, htail⟩
        exact ⟨t, by simp [htail]⟩

/-- When the loop finishes without a raised exception, every year's two
region reductions returned a dictionary, the records carry the years in
order, and each record's fields are the returned band values defaulted to
zero when the key is missing. -/
theorem analyzeYears_ok_fields (oracle : EarthEngineOracle) (ys : List Int)
    (recs : List ClimateRecord) (h : (analyzeYears oracle ys).2 = Except.ok recs) :
    recs.map ClimateRecord.year = ys ∧
    ∀ r ∈ recs, ∃ tOpt pOpt,
      oracle.tempReduceRegion r.year = Except.ok tOpt ∧
      oracle.precipReduceRegion r.year = Except.ok pOpt ∧
      r.tmean_annual = tOpt.getD 0 ∧ r.prec_annual = pOpt.getD 0 := by
  induction ys generalizing recs with
  | nil =>
    unfold analyzeYears at h
    cases h
    simp
  | cons z zs ih =>
    unfold analyzeYears at h
    cases ht : oracle.tempReduceRegion z with
    | error m => rw [ht] at h; cases h
    | ok tOpt =>
      rw [ht] at h
      cases hp : oracle.precipReduceRegion z with
      | error m => rw [hp] at h; cases h
      | ok pOpt =>
        rw [hp] at h
        simp only at h
        cases hrest : (analyzeYears oracle zs).2 with
        | error m => rw [hrest] at h; cases h
        | ok recs' =>
          rw [hrest] at h
          cases h
          rcases ih recs' hrest with ⟨hyears, hfields⟩
          constructor
          · simp [hyears]
          · intro r hr
            rcases List.mem_cons.mp hr with rfl | hr'
            · exact ⟨tOpt, pOpt, ht, hp, rfl, rfl⟩
            · exact hfields r hr'

/-- When the loop finishes without a raised exception, no call of any year in
the list raised. -/
theorem analyzeYears_ok_calls (oracle : EarthEngineOracle) (ys : List Int)
    (recs : List ClimateRecord) (h : (analyzeYears oracle ys).2 = Except.ok recs) :
    ∀ y ∈ ys, (∃ t, oracle.tempReduceRegion y = Except.ok t) ∧
      (∃ p, oracle.precipReduceRegion y = Except.ok p) := by
  induction ys generalizing recs with
  | nil => simp
  | cons z zs ih =>
    unfold analyzeYears at h
    cases ht : oracle.tempReduceRegion z with
    | error m => rw [ht] at h; cases h
    | ok tOpt =>
      rw [ht] at h
      cases hp : oracle.precipReduceRegion z with
      | error m => rw [hp] at h; cases h
      | ok pOpt =>
        rw [hp] at h
        simp only at h
        cases hrest : (analyzeYears oracle zs).2 with
        | error m => rw [hrest] at h; cases h
        | ok recs' =>
          intro y hy
          rcases List.mem_cons.mp hy with rfl | hy'
          · exact ⟨⟨tOpt, ht⟩, ⟨pOpt, hp⟩⟩
          · exact ih recs' hrest y hy'

/-- When the loop finishes without a raised exception, the trace is the full
trace of the year list. -/
theorem analyzeYears_ok_trace (oracle : EarthEngineOracle) (ys : List Int)
    (recs : List ClimateRecord) (h : (analyzeYears oracle ys).2 = Except.ok recs) :
    (analyzeYears oracle ys).1 = fullTrace ys := by
  induction ys generalizing recs with
  | nil => rfl
  | cons z zs ih =>
    unfold analyzeYears at h ⊢
    cases ht : oracle.tempReduceRegion z with
    | error m => rw [ht] at h; cases h
    | ok tOpt =>
      rw [ht] at h
      cases hp : oracle.precipReduceRegion z with
      | error m => rw [hp] at h; cases h
      | ok pOpt =>
        rw [hp] at h
        simp only at h ⊢
        cases hrest : (analyzeYears oracle zs).2 with
        | error m => rw [hrest] at h; cases h
        | ok recs' => simp [fullTrace, ih recs' hrest]

/-- If some call of a year in the list raises, the loop result is a raised
exception. -/
theorem analyzeYears_error_of_err (oracle : EarthEngineOracle) (ys : List Int)
    (h : ∃ y ∈ ys, (∃ m, oracle.tempReduceRegion y = Except.error m) ∨
      (∃ m, oracle.precipReduceRegion y = Except.error m)) :
    ∃ m, (analyzeYears oracle ys).2 = Except.error m := by
  cases hres : (analyzeYears oracle ys).2 with
  | error m => exact ⟨m, rfl⟩
  | ok recs =>
    exfalso
    rcases h with ⟨y, hy, herr⟩
    rcases analyzeYears_ok_calls oracle ys recs hres y hy with ⟨⟨t, htok⟩, ⟨p, hpok⟩⟩
    rcases herr with ⟨m, hm⟩ | ⟨m, hm⟩
    · rw [htok] at hm; cases hm
    · rw [hpok] at hm; cases hm

/-- C3: a request with start year strictly after end year is rejected with
the user-facing error before any remote aggregation call is issued: the
handler emits only that error, never invokes `analyze_point_climate`, and
issues no remote request. -/
theorem spec_C3 (oracle : EarthEngineOracle) (s e : Int) (h : e < s) :
    button_handler oracle s e =
      { messages := [UiMessage.uiError startYearErrMsg],
        analyzeInvoked := false,
        remoteTrace := [] } := by
  unfold button_handler
  rw [if_pos (le_of_lt h)]

/-- Witness for C3 at the concrete request 2022–2010 against an oracle that
would answer every call. -/
theorem spec_C3_witness :
    (2010 : Int) < 2022 ∧
    button_handler steadyOracle 2022 2010 =
      { messages := [UiMessage.uiError startYearErrMsg],
        analyzeInvoked := false,
        remoteTrace := [] } :=
  ⟨by decide, spec_C3 steadyOracle 2022 2010 (by decide)⟩

/-- C9: a request with start year exactly equal to end year is also rejected
with the "start year must be before end year" error before any remote call,
because the validation condition is `start_year >= end_year`, not a strict
comparison in the other direction. -/
theorem spec_C9 (oracle : EarthEngineOracle) (y : Int) :
    button_handler oracle y y =
      { messages := [UiMessage.uiError startYearErrMsg],
        analyzeInvoked := false,
        remoteTrace := [] } := by
  unfold button_handler
  rw [if_pos (le_refl y)]

/-- C8: an analysis that completes without a remote error but yields an
empty result set is surfaced as exactly the no-data warning, which is not an
error message; and the remote-failure path, for its part, never emits a
warning, so the two surfaces are distinct. -/
theorem spec_C8 :
    render_results (some []) = [UiMessage.uiWarning noDataMsg] ∧
    (∀ m, UiMessage.uiWarning noDataMsg ≠ UiMessage.uiError m) ∧
    (∀ (oracle : EarthEngineOracle) (s e : Int) (m : String),
      UiMessage.uiWarning m ∉ (analyze_point_climate oracle s e).messages) := by
  refine ⟨rfl, fun m => by simp, ?_⟩
  intro oracle s e m
  unfold analyze_point_climate
  cases hres : (analyzeYears oracle (yearRange s e)).2 with
  | ok recs => simp
  | error msg => simp

/-- C4: if any per-year region-reduction call raises, the whole batch
aborts: `analyze_point_climate` returns `None` rather than a partial prefix
of records, exactly one user-facing error message is emitted, and no request
is retried (the request trace never repeats a request). -/
theorem spec_C4 (oracle : EarthEngineOracle) (s e : Int)
    (h : ∃ y ∈ yearRange s e,
      (∃ m, oracle.tempReduceRegion y = Except.error m) ∨
      (∃ m, oracle.precipReduceRegion y = Except.error m)) :
    (analyze_point_climate oracle s e).result = none ∧
    (∃ m, (analyze_point_climate oracle s e).messages = [UiMessage.uiError m]) ∧
    (analyze_point_climate oracle s e).trace.Nodup := by
  rcases analyzeYears_error_of_err oracle (yearRange s e) h with ⟨m, hm⟩
  have htrace : (analyze_point_climate oracle s e).trace.Nodup := by
    unfold analyze_point_climate
    have hsub := analyzeYears_trace_below oracle (yearRange s e)
    have hfull := fullTrace_nodup (yearRange s e) (yearRange_nodup s e)
    cases hres : (analyzeYears oracle (yearRange s e)).2 with
    | ok recs =>
      simp only
      exact List.Nodup.sublist hsub.sublist hfull
    | error msg =>
      simp only
      exact List.Nodup.sublist hsub.sublist hfull
  refine ⟨?_, ?_, htrace⟩
  · unfold analyze_point_climate
    rw [hm]
  · unfold analyze_point_climate
    rw [hm]
    exact ⟨"Climate analysis failed: " ++ m, rfl⟩

/-- Witness for C4 at the concrete range 2010–2012 against the oracle whose
temperature reduction raises for the year 2011. -/
theorem spec_C4_witness :
    (∃ y ∈ yearRange 2010 2012,
      (∃ m, failingOracle.tempReduceRegion y = Except.error m) ∨
      (∃ m, failingOracle.precipReduceRegion y = Except.error m)) ∧
    ((analyze_point_climate failingOracle 2010 2012).result = none ∧
     (∃ m, (analyze_point_climate failingOracle 2010 2012).messages = [UiMessage.uiError m]) ∧
     (analyze_point_climate failingOracle 2010 2012).trace.Nodup) :=
  ⟨⟨2011, by decide, Or.inl ⟨"computation timed out", rfl⟩⟩,
   spec_C4 failingOracle 2010 2012
     ⟨2011, by decide, Or.inl ⟨"computation timed out", rfl⟩⟩⟩

/-- A successful return value of `analyze_point_climate` comes from a loop
run that finished without a raised exception on exactly those records. -/
theorem analyze_result_ok (oracle : EarthEngineOracle) (s e : Int)
    (recs : List ClimateRecord)
    (hr : (analyze_point_climate oracle s e).result = some recs) :
    (analyzeYears oracle (yearRange s e)).2 = Except.ok recs := by
  unfold analyze_point_climate at hr
  cases hres : (analyzeYears oracle (yearRange s e)).2 with
  | ok recs' =>
    rw [hres] at hr
    simp only at hr
    injection hr with h
    rw [h]
  | error m =>
    rw [hres] at hr
    simp only at hr
    exact Option.noConfusion hr

/-- Counting a year's temperature request in the full trace counts the year
in the year list. -/
theorem count_fullTrace_temp (y : Int) (ys : List Int) :
    (fullTrace ys).count (RemoteCall.tempRequest y) = ys.count y := by
  induction ys with
  | nil => rfl
  | cons z zs ih =>
    by_cases hyz : y = z
    · subst hyz
      simp [fullTrace, List.count_cons, ih]
    · simp [fullTrace, List.count_cons, ih, hyz, Ne.symm hyz]

/-- Counting a year's precipitation request in the full trace counts the
year in the year list. -/
theorem count_fullTrace_precip (y : Int) (ys : List Int) :
    (fullTrace ys).count (RemoteCall.precipRequest y) = ys.count y := by
  induction ys with
  | nil => rfl
  | cons z zs ih =>
    by_cases hyz : y = z
    · subst hyz
      simp [fullTrace, List.count_cons, ih]
    · simp [fullTrace, List.count_cons, ih, hyz, Ne.symm hyz]

/-- C6: a successful run over a valid range with start year at most end year
produces exactly one record per year of the inclusive range, in ascending
year order, each record holding the year together with the annual mean
temperature and annual total precipitation values returned for it (missing
band keys defaulted to zero). -/
theorem spec_C6 (oracle : EarthEngineOracle) (s e : Int) (recs : List ClimateRecord)
    (hse : s ≤ e) (hr : (analyze_point_climate oracle s e).result = some recs) :
    recs.map ClimateRecord.year = yearRange s e ∧
    (∀ y : Int, y ∈ recs.map ClimateRecord.year ↔ s ≤ y ∧ y ≤ e) ∧
    List.Pairwise (· < ·) (recs.map ClimateRecord.year) ∧
    recs.length = (e - s + 1).toNat ∧
    ∀ r ∈ recs, ∃ tOpt pOpt,
      oracle.tempReduceRegion r.year = Except.ok tOpt ∧
      oracle.precipReduceRegion r.year = Except.ok pOpt ∧
      r.tmean_annual = tOpt.getD 0 ∧ r.prec_annual = pOpt.getD 0 := by
  have hok := analyze_result_ok oracle s e recs hr
  rcases analyzeYears_ok_fields oracle (yearRange s e) recs hok with ⟨hyears, hfields⟩
  refine ⟨hyears, ?_, ?_, ?_, hfields⟩
  · intro y
    rw [hyears]
    exact yearRange_mem s e y
  · rw [hyears]
    exact yearRange_pairwise s e
  · have hlen := congrArg List.length hyears
    rw [List.length_map] at hlen
    rw [hlen]
    unfold yearRange
    rw [List.length_map, List.length_range]
    omega

/-- Witness for C6 at the concrete range 2010–2012 against the oracle whose
calls always succeed with temperature 10 and precipitation 500. -/
theorem spec_C6_witness :
    (2010 : Int) ≤ 2012 ∧
    (analyze_point_climate steadyOracle 2010 2012).result =
      some [⟨2010, 10, 500⟩, ⟨2011, 10, 500⟩, ⟨2012, 10, 500⟩] ∧
    (([⟨2010, 10, 500⟩, ⟨2011, 10, 500⟩, ⟨2012, 10, 500⟩] : List ClimateRecord).map
        ClimateRecord.year = yearRange 2010 2012 ∧
      (∀ y : Int,
        y ∈ (([⟨2010, 10, 500⟩, ⟨2011, 10, 500⟩, ⟨2012, 10, 500⟩] : List ClimateRecord).map
          ClimateRecord.year) ↔ 2010 ≤ y ∧ y ≤ 2012) ∧
      List.Pairwise (· < ·)
        (([⟨2010, 10, 500⟩, ⟨2011, 10, 500⟩, ⟨2012, 10, 500⟩] : List ClimateRecord).map
          ClimateRecord.year) ∧
      ([⟨2010, 10, 500⟩, ⟨2011, 10, 500⟩, ⟨2012, 10, 500⟩] : List ClimateRecord).length =
        ((2012 : Int) - 2010 + 1).toNat ∧
      ∀ r ∈ ([⟨2010, 10, 500⟩, ⟨2011, 10, 500⟩, ⟨2012, 10, 500⟩] : List ClimateRecord),
        ∃ tOpt pOpt,
          steadyOracle.tempReduceRegion r.year = Except.ok tOpt ∧
          steadyOracle.precipReduceRegion r.year = Except.ok pOpt ∧
          r.tmean_annual = tOpt.getD 0 ∧ r.prec_annual = pOpt.getD 0) :=
  ⟨by decide, by decide,
   spec_C6 steadyOracle 2010 2012 [⟨2010, 10, 500⟩, ⟨2011, 10, 500⟩, ⟨2012, 10, 500⟩]
     (by decide) (by decide)⟩

/-- C7 counterexample: for the single-year range 2000–2000 the loop issues
two region-reduction requests, one for the temperature band and one for the
precipitation band, not one combined request returning both. -/
theorem spec_C7_counterexample :
    (analyze_point_climate steadyOracle 2000 2000).trace =
      [RemoteCall.tempRequest 2000, RemoteCall.precipRequest 2000] ∧
    (analyze_point_climate steadyOracle 2000 2000).trace.length ≠ 1 := by
  constructor <;> decide

/-- C7 (amended): for each year in the requested range the code issues
exactly two spatial-statistical aggregation requests — one region reduction
for the converted temperature band and one for the converted precipitation
band — rather than one combined request: on a successful run the trace is
precisely, year by year in order, the temperature request followed by the
precipitation request, and each year's two requests each occur exactly
once. -/
theorem spec_C7 (oracle : EarthEngineOracle) (s e : Int) (recs : List ClimateRecord)
    (hr : (analyze_point_climate oracle s e).result = some recs) :
    (analyze_point_climate oracle s e).trace = fullTrace (yearRange s e) ∧
    ∀ y ∈ yearRange s e,
      (analyze_point_climate oracle s e).trace.count (RemoteCall.tempRequest y) = 1 ∧
      (analyze_point_climate oracle s e).trace.count (RemoteCall.precipRequest y) = 1 := by
  have hok := analyze_result_ok oracle s e recs hr
  have htr : (analyze_point_climate oracle s e).trace = fullTrace (yearRange s e) := by
    unfold analyze_point_climate
    rw [hok]
    simp only
    exact analyzeYears_ok_trace oracle (yearRange s e) recs hok
  refine ⟨htr, ?_⟩
  intro y hy
  rw [htr, count_fullTrace_temp, count_fullTrace_precip]
  constructor <;> exact List.count_eq_one_of_mem (yearRange_nodup s e) hy

/-- Witness for C7 at the concrete range 2005–2006 against the oracle whose
calls always succeed. -/
theorem spec_C7_witness :
    (analyze_point_climate steadyOracle 2005 2006).result =
      some [⟨2005, 10, 500⟩, ⟨2006, 10, 500⟩] ∧
    ((analyze_point_climate steadyOracle 2005 2006).trace = fullTrace (yearRange 2005 2006) ∧
     ∀ y ∈ yearRange 2005 2006,
       (analyze_point_climate steadyOracle 2005 2006).trace.count (RemoteCall.tempRequest y) = 1 ∧
       (analyze_point_climate steadyOracle 2005 2006).trace.count (RemoteCall.precipRequest y) = 1) :=
  ⟨by decide,
   spec_C7 steadyOracle 2005 2006 [⟨2005, 10, 500⟩, ⟨2006, 10, 500⟩] (by decide)⟩

/-- C10: when the region reductions of a year in the range succeed but their
dictionaries hold no value for the bands, the record for that year is still
produced with temperature and precipitation silently defaulted to 0, the
batch succeeds with no message and renders results, and such a year is
classified via `classify_climate_type 0 0` as the semi-arid label rather
than triggering the no-data warning or the error path. -/
theorem spec_C10 (oracle : EarthEngineOracle) (s e y : Int) (recs : List ClimateRecord)
    (hy : y ∈ yearRange s e)
    (ht : oracle.tempReduceRegion y = Except.ok none)
    (hp : oracle.precipReduceRegion y = Except.ok none)
    (hr : (analyze_point_climate oracle s e).result = some recs) :
    (⟨y, 0, 0⟩ : ClimateRecord) ∈ recs ∧
    (analyze_point_climate oracle s e).messages = [] ∧
    render_results (analyze_point_climate oracle s e).result = [UiMessage.resultsShown] ∧
    classify_climate_type 0 0 = "BS - Semi-arid" := by
  have hok := analyze_result_ok oracle s e recs hr
  rcases analyzeYears_ok_fields oracle (yearRange s e) recs hok with ⟨hyears, hfields⟩
  have hy' : y ∈ recs.map ClimateRecord.year := by rw [hyears]; exact hy
  rcases List.mem_map.mp hy' with ⟨r, hrmem, hryear⟩
  rcases hfields r hrmem with ⟨tOpt, pOpt, htr, hpr, htm, hpm⟩
  have hrec : r = (⟨y, 0, 0⟩ : ClimateRecord) := by
    rw [hryear] at htr hpr
    rw [ht] at htr
    rw [hp] at hpr
    cases htr
    cases hpr
    rcases r with ⟨ry, rt, rp⟩
    simp only at hryear htm hpm
    rw [hryear, htm, hpm]
    rfl
  have hmsg : (analyze_point_climate oracle s e).messages = [] := by
    unfold analyze_point_climate
    rw [hok]
  have hne : ¬recs.isEmpty := by
    intro h0
    rw [List.isEmpty_iff] at h0
    rw [h0] at hrmem
    cases hrmem
  refine ⟨hrec ▸ hrmem, hmsg, ?_, by decide⟩
  rw [hr]
  unfold render_results
  simp only [if_neg hne]

/-- Witness for C10 at the concrete range 2015–2016 against the oracle whose
region reductions succeed with dictionaries missing the band keys. -/
theorem spec_C10_witness :
    ((2015 : Int) ∈ yearRange 2015 2016 ∧
     missingKeyOracle.tempReduceRegion 2015 = Except.ok none ∧
     missingKeyOracle.precipReduceRegion 2015 = Except.ok none ∧
     (analyze_point_climate missingKeyOracle 2015 2016).result =
       some [⟨2015, 0, 0⟩, ⟨2016, 0, 0⟩]) ∧
    ((⟨2015, 0, 0⟩ : ClimateRecord) ∈
       ([⟨2015, 0, 0⟩, ⟨2016, 0, 0⟩] : List ClimateRecord) ∧
     (analyze_point_climate missingKeyOracle 2015 2016).messages = [] ∧
     render_results (analyze_point_climate missingKeyOracle 2015 2016).result =
       [UiMessage.resultsShown] ∧
     classify_climate_type 0 0 = "BS - Semi-arid") :=
  ⟨⟨by decide, rfl, rfl, by decide⟩,
   spec_C10 missingKeyOracle 2015 2016 2015 [⟨2015, 0, 0⟩, ⟨2016, 0, 0⟩]
     (by decide) rfl rfl (by decide)⟩
